import Mathlib

/-!
Shallow embedding of the bug-reporting operator (blockers reporter,
escalation reporter, new-bug reporter) and proofs about its
classification, grouping, escalation and watermark logic.

Machine integers of the source are modelled as `Nat`/`Int` (no value in
the program approaches an overflow boundary), maps as association lists
or total functions with a default, and the fallible external calls
(tracker search, persistent store) as `Except`/`Option` data threaded
explicitly.
-/

/-- One flag on a bug (`bugzilla.Flag`): a name and a status value such as
`blocker=+`. -/
structure BugFlag where
  name : String
  status : String
deriving DecidableEq

/-- Nested type tag of an external tracker case (`eb.Type.Type` in the
source). -/
structure ExternalBugType where
  type : String
deriving DecidableEq

/-- One external case attached to a bug (`bugzilla.ExternalBug`). -/
structure ExternalBug where
  type : ExternalBugType
deriving DecidableEq

/-- The issue record (`bugzilla.Bug`), restricted to the fields the
reporters read. Defaults mirror Go zero values. -/
structure Bug where
  id : Nat := 0
  assignedTo : String := ""
  keywords : List String := []
  whiteboard : String := ""
  severity : String := ""
  priority : String := ""
  targetRelease : List String := []
  status : String := ""
  flags : List BugFlag := []
  escalation : String := ""
  externalBugs : List ExternalBug := []
  component : List String := []
  summary : String := ""
deriving DecidableEq

/-- One field/operator/value predicate of a tracker query
(`bugzilla.AdvancedQuery`). -/
structure AdvancedQuery where
  field : String
  op : String
  value : String
deriving DecidableEq

/-- Declarative tracker query descriptor (`bugzilla.Query`), restricted to
the fields the reporters set. -/
structure Query where
  classification : List String := []
  product : List String := []
  status : List String := []
  component : List String := []
  targetRelease : List String := []
  advanced : List AdvancedQuery := []
  includeFields : List String := []
deriving DecidableEq

/-- Substring test (`strings.Contains`): `pat` occurs in `s` exactly when
splitting on `pat` yields more than one piece. -/
def containsSubstr (s pat : String) : Bool :=
  (s.splitOn pat).length > 1

/-- The fixed serious-keyword list of the blockers reporter. -/
def seriousKeywords : List String :=
  ["ServiceDeliveryBlocker", "TestBlocker", "UpgradeBlocker"]

/-- hasFlag from the blockers reporter: some flag has the given name and
status value. -/
def hasFlag (b : Bug) (name value : String) : Bool :=
  b.flags.any fun f => f.name == name && f.status == value

/-- Resolved release of a bug: first target-release element, or the
sentinel when the list is empty (lines 105-108 of the blockers
reporter). -/
def resolvedRelease (b : Bug) : String :=
  match b.targetRelease with
  | [] => "---"
  | r :: _ => r

/-- Release gate shared by the blocker and current-release rules: resolved
release equals the reference release or the sentinel. -/
def releaseGate (cur : String) (b : Bug) : Bool :=
  resolvedRelease b == cur || resolvedRelease b == "---"

/-- Condition of the blocker+ branch of summarizeBugs (line 110). -/
def blockerPlusCond (cur : String) (b : Bug) : Bool :=
  hasFlag b "blocker" "+" && releaseGate cur b

/-- Condition of the blocker? branch of summarizeBugs (line 116). -/
def blockerQuestionCond (cur : String) (b : Bug) : Bool :=
  hasFlag b "blocker" "?" && releaseGate cur b

/-- Condition of the urgent branch of summarizeBugs (line 95). -/
def urgentCond (b : Bug) : Bool :=
  b.priority == "urgent" || b.severity == "urgent"

/-- Condition of the to-triage branch of summarizeBugs (line 123); the
triage state set is NEW or the empty status. -/
def triageCond (cur : String) (b : Bug) : Bool :=
  (resolvedRelease b == cur && (b.status == "NEW" || b.status == "")) ||
    resolvedRelease b == "---" ||
    b.priority == "unspecified" || b.priority == "" ||
    b.severity == "unspecified" || b.severity == ""

/-- Point update of a list-valued map: append `v` at key `k` (Go
`m[k] = append(m[k], v)`). -/
def appendAt {α : Type} (m : String → List α) (k : String) (v : α) :
    String → List α :=
  fun x => if x = k then m x ++ [v] else m x

/-- Point increment of a counter map (Go `m[k]++`). -/
def bump (m : String → Nat) (k : String) : String → Nat :=
  fun x => if x = k then m x + 1 else m x

/-- The bugSummary record of the blockers reporter. The Go map fields are
modelled as total functions defaulting to the Go zero value. -/
structure bugSummary where
  seriousIDs : String → List Nat
  blockerPlus : List String
  blockerPlusIDs : List Nat
  blockerQuestionmark : List String
  blockerQuestionmarkIDs : List Nat
  toTriage : List String
  toTriageIDs : List Nat
  needUpcomingSprint : List String
  needUpcomingSprintIDs : List Nat
  urgentIDs : List Nat
  urgent : List String
  staleCount : Nat
  priorityCount : String → Nat
  severityCount : String → Nat
  currentReleaseCount : Nat

/-- Initial summary of summarizeBugs: empty maps, nil slices, zero
counters. -/
def initSummary : bugSummary where
  seriousIDs := fun _ => []
  blockerPlus := []
  blockerPlusIDs := []
  blockerQuestionmark := []
  blockerQuestionmarkIDs := []
  toTriage := []
  toTriageIDs := []
  needUpcomingSprint := []
  needUpcomingSprintIDs := []
  urgentIDs := []
  urgent := []
  staleCount := 0
  priorityCount := fun _ => 0
  severityCount := fun _ => 0
  currentReleaseCount := 0

/-- Update of the seriousIDs map for one bug: the serious-keyword loop
(lines 82-86) followed by the synthetic blocker+ and blocker? keys
(lines 113 and 119). -/
def seriousUpdate (cur : String) (b : Bug) (s : String → List Nat) :
    String → List Nat :=
  let s0 := seriousKeywords.foldl
    (fun s kw => if b.keywords.contains kw then appendAt s kw b.id else s) s
  let s1 := if blockerPlusCond cur b then appendAt s0 "blocker+" b.id else s0
  if blockerQuestionCond cur b then appendAt s1 "blocker?" b.id else s1

/-- Loop body of summarizeBugs for one bug. Every field of the summary is
updated independently in the source loop (lines 80-131); the record
literal lists the per-field effect of one iteration, with `fmt` standing
for the external display-line renderer bugutil.FormatBugMessage. -/
def summarizeStep (fmt : Bug → String) (cur : String) (r : bugSummary)
    (b : Bug) : bugSummary where
  seriousIDs := seriousUpdate cur b r.seriousIDs
  blockerPlus :=
    if blockerPlusCond cur b then r.blockerPlus ++ [fmt b] else r.blockerPlus
  blockerPlusIDs :=
    if blockerPlusCond cur b then r.blockerPlusIDs ++ [b.id]
    else r.blockerPlusIDs
  blockerQuestionmark :=
    if blockerQuestionCond cur b then r.blockerQuestionmark ++ [fmt b]
    else r.blockerQuestionmark
  blockerQuestionmarkIDs :=
    if blockerQuestionCond cur b then r.blockerQuestionmarkIDs ++ [b.id]
    else r.blockerQuestionmarkIDs
  toTriage := if triageCond cur b then r.toTriage ++ [fmt b] else r.toTriage
  toTriageIDs :=
    if triageCond cur b then r.toTriageIDs ++ [b.id] else r.toTriageIDs
  needUpcomingSprint :=
    if b.keywords.contains "UpcomingSprint" then r.needUpcomingSprint
    else r.needUpcomingSprint ++ [fmt b]
  needUpcomingSprintIDs :=
    if b.keywords.contains "UpcomingSprint" then r.needUpcomingSprintIDs
    else r.needUpcomingSprintIDs ++ [b.id]
  urgentIDs := if urgentCond b then r.urgentIDs ++ [b.id] else r.urgentIDs
  urgent := if urgentCond b then r.urgent ++ [fmt b] else r.urgent
  staleCount :=
    if containsSubstr b.whiteboard "LifecycleStale" then r.staleCount + 1
    else r.staleCount
  priorityCount := bump r.priorityCount b.priority
  severityCount := bump r.severityCount b.severity
  currentReleaseCount :=
    if releaseGate cur b then r.currentReleaseCount + 1
    else r.currentReleaseCount

/-- summarizeBugs: fold the per-bug step over the input list. -/
def summarizeBugs (fmt : Bug → String) (cur : String) (bugs : List Bug) :
    bugSummary :=
  bugs.foldl (summarizeStep fmt cur) initSummary

/-- Per-assignee grouping maps: identifier map and display-line map, both
keyed by assignee. -/
abbrev PersonMap := (String → List Nat) × (String → List String)

/-- The empty pair of per-assignee maps. -/
def emptyPM : PersonMap := (fun _ => [], fun _ => [])

/-- The generic per-person grouper closure of sync (lines 159-171): walk
the parallel identifier/line lists, skip identifiers missing from the
index, and append the rest per assignee. The parallel lists are walked by
a simultaneous traversal (`zip`); the callers always pass lists built in
lockstep. -/
def perPerson (byID : Nat → Option Bug) (ids : List Nat)
    (lines : List String) : PersonMap :=
  (ids.zip lines).foldl
    (fun maps p =>
      match byID p.1 with
      | none => maps
      | some b =>
        (appendAt maps.1 b.assignedTo p.1, appendAt maps.2 b.assignedTo p.2))
    emptyPM

/-- Identifier index built by sync (lines 154-157): the Go map keeps the
last bug written per identifier. -/
def buildByID (bugs : List Bug) : Nat → Option Bug :=
  fun id => bugs.reverse.find? fun b => b.id == id

/-- The three per-person grouping pairs computed by sync (lines 173-175),
in order: to-triage, blocker+, urgent. Line 174 passes
summary.toTriageIDs and summary.toTriage to the blocker+ grouping. -/
def syncPerPersonGroupings (byID : Nat → Option Bug) (summary : bugSummary) :
    PersonMap × PersonMap × PersonMap :=
  ( perPerson byID summary.toTriageIDs summary.toTriage,
    perPerson byID summary.toTriageIDs summary.toTriage,
    perPerson byID summary.urgentIDs summary.urgent )

/-- Data part of the blockers Report function (lines 238-259): on search
success it returns the summary of the searched bugs and, as the
issue-list result, the literal nil of line 258 (modelled as `[]`). The
channel-report text (first Go return value) is presentation-only glue and
is not modelled. -/
def blockersReport (fmt : Bug → String) (cur : String)
    (searchResult : Except String (List Bug)) :
    Except String (bugSummary × List Bug) :=
  match searchResult with
  | .error e => .error e
  | .ok bugs => .ok (summarizeBugs fmt cur bugs, [])

/-- Composition of sync on the success path: feed the Report results into
the identifier index and the three per-person groupings. -/
def blockersSyncGroupings (fmt : Bug → String) (cur : String)
    (searchBugs : List Bug) : PersonMap × PersonMap × PersonMap :=
  match blockersReport fmt cur (.ok searchBugs) with
  | .error _ => (emptyPM, emptyPM, emptyPM)
  | .ok (summary, bugs) => syncPerPersonGroupings (buildByID bugs) summary

/-- Configuration entry for one component: lead identifier and developer
list (config.Component, consumed read-only). -/
structure ComponentInfo where
  lead : String := ""
  developers : List String := []
deriving DecidableEq

/-- Lookup of a component name in the configuration (Go map read
`cfg.Components[name]`, modelled over an association list). -/
def lookupComp (cfg : List (String × ComponentInfo)) (name : String) :
    Option ComponentInfo :=
  (cfg.find? fun p => p.1 == name).map Prod.snd

/-- Insert a string into a list-modelled set only if absent
(`sets.String.Insert`). -/
def insertUnique (l : List String) (x : String) : List String :=
  if l.contains x then l else l ++ [x]

/-- customerCases of the escalation Report loop (lines 70-76): some
external case has the customer-case-system type tag SFDC. -/
def hasCustomerCase (b : Bug) : Bool :=
  b.externalBugs.any fun eb => eb.type.type == "SFDC"

/-- Eligibility condition of the escalation Report loop (line 78):
explicit escalation indicator, or a customer case combined with urgent
priority, or a customer case combined with urgent severity and
unspecified priority. -/
def escalationEligible (b : Bug) : Bool :=
  b.escalation == "Yes" ||
    (hasCustomerCase b && b.priority == "urgent") ||
    (hasCustomerCase b && b.severity == "urgent" &&
      b.priority == "unspecified")

/-- Accumulator of the escalation Report loop. The Go maps
assigned/leadsBugs are modelled as insertion-ordered pair lists (a key is
present in the Go map exactly when a pair with that key is present
here); missing is the sets.String of unknown component names. -/
structure EscState where
  assignedPairs : List (String × Bug) := []
  silenced : List Bug := []
  leadsPairs : List (String × Bug) := []
  missing : List String := []
deriving DecidableEq

/-- Entry appended to leadsBugs for one eligible bug (lines 81-90): the
primary component must exist, be configured, and have a nonempty lead. -/
def leadEntry (cfg : List (String × ComponentInfo)) (b : Bug) :
    List (String × Bug) :=
  match b.component with
  | [] => []
  | c :: _ =>
    match lookupComp cfg c with
    | none => []
    | some ci => if ci.lead == "" then [] else [(ci.lead, b)]

/-- Update of the missing-component set for one eligible bug (lines
82-85). -/
def missingUpdate (cfg : List (String × ComponentInfo)) (b : Bug)
    (missing : List String) : List String :=
  match b.component with
  | [] => missing
  | c :: _ =>
    match lookupComp cfg c with
    | none => insertUnique missing c
    | some _ => missing

/-- Loop body of the escalation Report function for one bug (lines
68-94). -/
def escStep (cfg : List (String × ComponentInfo)) (st : EscState)
    (b : Bug) : EscState :=
  if escalationEligible b then
    { assignedPairs := st.assignedPairs ++ [(b.assignedTo, b)]
      silenced := st.silenced
      leadsPairs := st.leadsPairs ++ leadEntry cfg b
      missing := missingUpdate cfg b st.missing }
  else if b.severity == "urgent" && b.priority != "unspecified" then
    { st with silenced := st.silenced ++ [b] }
  else st

/-- The escalation aggregation over a full bug list. -/
def escFold (cfg : List (String × ComponentInfo)) (bugs : List Bug) :
    EscState :=
  bugs.foldl (escStep cfg) {}

/-- Reading the assigned map at one assignee key. -/
def assignedOf (st : EscState) (a : String) : List Bug :=
  (st.assignedPairs.filter fun p => p.1 == a).map Prod.snd

/-- Escalation quota for a team (line 114): Go computes
`max(1, int(float64(len(team))*0.2))`; the float literal 0.2 and the
truncating int conversion of a non-negative value are modelled exactly by
the rational 1/5 and the floor. -/
def escalationQuota (team : List String) : Nat :=
  max 1 (Nat.floor ((team.length : ℚ) * (1 / 5)))

/-- Over-quota verdict for a lead (line 116): the attributed bug count
strictly exceeds the quota. -/
def leadOverQuota (numBugs : Nat) (team : List String) : Bool :=
  decide (escalationQuota team < numBugs)

/-- Map-key iteration order: first appearance of each key in the pair
list (the Go map iteration order is unspecified; one fixed order is
chosen). -/
def firstKeys {α : Type} (pairs : List (String × α)) : List String :=
  pairs.foldl (fun acc p => insertUnique acc p.1) []

/-- Developer roots for a lead (lines 107-112): union of the developer
lists of every configured component whose lead matches. -/
def leadRoots (cfg : List (String × ComponentInfo)) (lead : String) :
    List String :=
  cfg.foldl
    (fun acc p =>
      if p.2.lead == lead then p.2.developers.foldl insertUnique acc else acc)
    []

/-- Join with single spaces. -/
def joinSpace (l : List String) : String := String.intercalate " " l

/-- Lines rendered for one lead (lines 106-125): a header that carries the
over-quota marker exactly when the attributed count exceeds the quota of
the expanded team, followed by one line per attributed bug. `expand`
stands for the external group expansion helper config.ExpandGroups and
`bugURL` for the external link renderer bugutil.GetBugURL. -/
def leadSection (expand : List String → List String) (bugURL : Bug → String)
    (cfg : List (String × ComponentInfo)) (leadsPairs : List (String × Bug))
    (lead : String) : List String :=
  let lbugs := (leadsPairs.filter fun p => p.1 == lead).map Prod.snd
  let team := expand (leadRoots cfg lead)
  let header :=
    if leadOverQuota lbugs.length team then
      ":red-siren: " ++ lead ++ "'s team with " ++ toString lbugs.length ++
        " bugs, above the quota of " ++ toString (escalationQuota team)
    else
      lead ++ "'s team with " ++ toString lbugs.length ++ " bug"
  header ::
    lbugs.map fun b =>
      "> " ++ bugURL b ++ " " ++ b.status ++ " @ " ++ b.assignedTo ++ ": " ++
        b.summary

/-- Assignees-with-more-than-one-escalation section (lines 127-145); the
section header is emitted before the first qualifying assignee only. -/
def assignedSection (bugURL : Bug → String)
    (assignedPairs : List (String × Bug)) : List String :=
  (firstKeys assignedPairs).foldl
    (fun acc assignee =>
      let abugs := (assignedPairs.filter fun p => p.1 == assignee).map Prod.snd
      if abugs.length == 1 then acc
      else
        let acc :=
          if acc.isEmpty then ["", "Assignees with more than one escalation:"]
          else acc
        acc ++
          ["> :red-siren: " ++ assignee ++ ": " ++
            joinSpace (abugs.map bugURL)])
    []

/-- Silenced-bug section (lines 147-153). -/
def silencedSection (bugURL : Bug → String) (silenced : List Bug) :
    List String :=
  if silenced.isEmpty then []
  else
    ["",
      toString silenced.length ++ " silenced bugs :see_no_evil: : " ++
        joinSpace (silenced.map bugURL)]

/-- Body of the escalation report when it is non-empty (lines 104-155). -/
def escReportLines (expand : List String → List String)
    (bugURL : Bug → String) (cfg : List (String × ComponentInfo))
    (bugs : List Bug) : String :=
  let st := escFold cfg bugs
  String.intercalate "\n"
    (["Escalation report:", ""] ++
      (firstKeys st.leadsPairs).foldl
        (fun acc lead => acc ++ leadSection expand bugURL cfg st.leadsPairs lead)
        [] ++
      assignedSection bugURL st.assignedPairs ++
      silencedSection bugURL st.silenced)

/-- The escalation Report result for a given search result (lines
57-156): the empty string is returned when both the per-lead attribution
map and the silenced list are empty (line 100); the missing-component
admin notification is a side effect outside the returned value and is
not modelled. -/
def escReport (expand : List String → List String) (bugURL : Bug → String)
    (cfg : List (String × ComponentInfo)) (bugs : List Bug) : String :=
  if (escFold cfg bugs).leadsPairs.isEmpty &&
      (escFold cfg bugs).silenced.isEmpty then ""
  else escReportLines expand bugURL cfg bugs

/-- The query built by getSeverityUrgentBugs (lines 165-182) of the
escalation reporter. -/
def escalationQuery (components : List String) : Query where
  classification := ["Red Hat"]
  product := ["OpenShift Container Platform"]
  status := ["NEW", "ASSIGNED", "POST", "ON_DEV"]
  component := components
  includeFields :=
    ["id", "assigned_to", "status", "severity", "priority", "external_bugs",
      "component", "summary"]

/-- Modelled from the spec: evaluation of one advanced predicate of a
query against a bug. The spec (section 6) describes Search as returning
the issues satisfying the ordered field/operator/value predicates; the
two predicate shapes used by the reporters over fields present on the
Issue record are interpreted, and predicates over tracker-side fields
outside the record (creation time, identifier cursor) are treated as
satisfied. -/
def evalAdvanced (b : Bug) (aq : AdvancedQuery) : Bool :=
  if aq.op == "notequals" then
    if aq.field == "bug_severity" then b.severity != aq.value
    else if aq.field == "priority" then b.priority != aq.value
    else true
  else true

/-- Modelled from the spec: the tracker Search (section 6) returns the
issues satisfying the query descriptor. A bug satisfies the descriptor
when its status is in the status set, one of its components is in the
component set, its resolved release is in the target-release set (when
that set is non-empty), and every advanced predicate holds; the
classification and product fields describe tracker-side taxonomy not
present on the Issue record and are treated as satisfied. -/
def matchesQuery (q : Query) (b : Bug) : Bool :=
  q.status.contains b.status &&
    b.component.any (fun c => q.component.contains c) &&
    (q.targetRelease.isEmpty || q.targetRelease.contains (resolvedRelease b)) &&
    q.advanced.all (evalAdvanced b)

/-- Value of a non-empty all-digit character list, or failure. -/
def digitsValue (l : List Char) : Option Nat :=
  match l with
  | [] => none
  | _ =>
    l.foldl
      (fun acc c =>
        acc.bind fun n => if c.isDigit then some (n * 10 + (c.toNat - 48)) else none)
      (some 0)

/-- Model of strconv.Atoi restricted to its success/failure behavior: an
optional single sign followed by at least one digit parses to the signed
value, anything else fails (the int64 range check is ignored: no
watermark approaches it). -/
def atoi (s : String) : Option Int :=
  match s.data with
  | [] => none
  | c :: rest =>
    if c = '-' then (digitsValue rest).map fun n => -(n : Int)
    else if c = '+' then (digitsValue rest).map fun n => (n : Int)
    else (digitsValue (c :: rest)).map fun n => (n : Int)

/-- Watermark value after the state-read phase of the new-bug sync (lines
41-50): 0 for an empty stored string, the parsed value for a valid
integer, and 0 (with only a warning logged) when parsing fails. -/
def parsedWatermark (s : String) : Int :=
  if s = "" then 0
  else
    match atoi s with
    | some n => n
    | none => 0

/-- The query built by getNewBugs (lines 102-129): the bug-id cursor
predicate, replaced by the 24-hour creation-time bootstrap predicate when
the watermark is 0. -/
def newBugsQuery (components : List String) (lastID : Int) : Query where
  classification := ["Red Hat"]
  product := ["OpenShift Container Platform"]
  status := ["NEW"]
  component := components
  advanced :=
    if lastID == 0 then [⟨"creation_ts", "greaterthaneq", "-24h"⟩]
    else [⟨"bug_id", "greaterthan", toString lastID⟩]
  includeFields := ["id", "assigned_to", "component", "summary"]

/-- getNewBugs: build the query for the watermark and call the tracker
client. -/
def getNewBugs (client : Query → Except String (List Bug))
    (components : List String) (lastID : Int) : Except String (List Bug) :=
  client (newBugsQuery components lastID)

/-- Watermark scan of the new-bug sync loop (lines 67-76): each visited
bug raises the cursor to its identifier when larger, and the loop breaks
after the iteration with index 51 (the same break that truncates the
admin message), so bugs beyond index 51 are never visited. -/
def scanLastID (cur : Int) (i : Nat) : List Bug → Int
  | [] => cur
  | b :: rest =>
    let cur2 := if (b.id : Int) > cur then (b.id : Int) else cur
    if i > 50 then cur2 else scanLastID cur2 (i + 1) rest

/-- External collaborators of one new-bug sync cycle: the stored
watermark string read from the key/value store, the tracker client, and
the error (if any) of the persist write. -/
structure SyncEnv where
  stored : Except String String
  client : Query → Except String (List Bug)
  persistFails : Option String

/-- Observable outcome of one new-bug sync cycle: the watermark values
passed to SetPersistentValue, in order, and the returned error. -/
structure SyncOutcome where
  persistCalls : List Int
  err : Option String
deriving DecidableEq

/-- The deferred persist of sync (lines 51-57): record the single write
attempt; the cycle error takes precedence, otherwise the persist error
`pf` is returned. -/
def finishPersist (pf : Option String) (lastID : Int)
    (cycleErr : Option String) : SyncOutcome where
  persistCalls := [lastID]
  err :=
    match cycleErr with
    | some e => some e
    | none => pf

/-- The part of the new-bug sync cycle after a successful state read
(lines 51-82), written as the explicit two-phase sequence the deferred
persist denotes: run the cycle from the parsed watermark, then attempt
the persist once, cycle error first. After a successful search the
watermark is advanced by the truncated scan and the error aggregate of
the loop stays empty, so the cycle error is the search error or
nothing. -/
def syncAfterRead (client : Query → Except String (List Bug))
    (components : List String) (pf : Option String) (lastID : Int) :
    SyncOutcome :=
  match getNewBugs client components lastID with
  | .error e => finishPersist pf lastID (some e)
  | .ok newBugs => finishPersist pf (scanLastID lastID 0 newBugs) none

/-- One new-bug sync cycle (lines 36-82). A failing state read returns
before the deferred persist is registered, so no persist is attempted on
that path. -/
def syncNewBugs (env : SyncEnv) (components : List String) : SyncOutcome :=
  match env.stored with
  | .error e => { persistCalls := [], err := some e }
  | .ok s => syncAfterRead env.client components env.persistFails
      (parsedWatermark s)

/-- Concrete display-line renderer used for closed evaluations (the real
renderer bugutil.FormatBugMessage is external glue; every statement about
the grouping is parametric in it). -/
def fmtID : Bug → String := fun b => toString b.id

/-- Concrete bug that is to-triage but not blocker+: assigned, untriaged
status NEW on the reference release, no flags. -/
def c1Bug : Bug where
  id := 7
  assignedTo := "alice"
  severity := "high"
  priority := "high"
  targetRelease := ["4.6"]
  status := "NEW"

/-- Summary of the single to-triage bug for reference release 4.6. -/
def c1Summary : bugSummary := summarizeBugs fmtID "4.6" [c1Bug]

/-- Identifier index containing the single to-triage bug. -/
def c1Index : Nat → Option Bug := buildByID [c1Bug]

/-- Concrete bug with severity low that satisfies every constraint of the
escalation query. -/
def lowSevBug : Bug where
  id := 1
  assignedTo := "alice"
  status := "NEW"
  severity := "low"
  priority := "high"
  component := ["etcd"]
  escalation := "Yes"

/-- Concrete result set of 53 bugs: identifiers 1..52 followed by 1000,
so the maximal identifier sits past the break index of the watermark
scan. -/
def cexBugs : List Bug :=
  ((List.range 52).map fun n => { id := n + 1 }) ++ [{ id := 1000 }]

/-- Concrete environment for the truncated-watermark counterexample:
empty stored watermark, a search returning the 53 bugs, and a succeeding
persist. -/
def cexEnv : SyncEnv where
  stored := .ok ""
  client := fun _ => .ok cexBugs
  persistFails := none

/-- Concrete configuration in which the only component has no lead. -/
def wCfg : List (String × ComponentInfo) := [("etcd", { lead := "" })]

/-- Concrete eligible bug whose component has no configured lead. -/
def wBug : Bug where
  id := 5
  assignedTo := "alice"
  status := "NEW"
  severity := "low"
  priority := "high"
  component := ["etcd"]
  escalation := "Yes"

/-- Concrete tracker client that returns no bugs, for closed
evaluations. -/
def wClient : Query → Except String (List Bug) := fun _ => .ok []

theorem appendAt_self {α : Type} (m : String → List α) (k : String) (v : α) :
    appendAt m k v k = m k ++ [v] := by
  simp [appendAt]

theorem appendAt_ne {α : Type} (m : String → List α) (k : String) (v : α)
    (x : String) (h : x ≠ k) : appendAt m k v x = m x := by
  simp [appendAt, h]

theorem foldKw_preserve (b : Bug) (k : String) :
    ∀ (l : List String) (s : String → List Nat), k ∉ l →
      (l.foldl
        (fun s kw => if b.keywords.contains kw then appendAt s kw b.id else s)
        s) k = s k := by
  intro l
  induction l with
  | nil => intro s _; rfl
  | cons kw rest ih =>
    intro s hk
    have hne : k ≠ kw := fun h => hk (h ▸ List.mem_cons_self kw rest)
    have hrest : k ∉ rest := fun h => hk (List.mem_cons_of_mem _ h)
    rw [List.foldl_cons, ih _ hrest]
    by_cases hc : b.keywords.contains kw
    · rw [if_pos hc, appendAt_ne _ _ _ _ hne]
    · rw [if_neg hc]

theorem seriousUpdate_plus (cur : String) (b : Bug) (s : String → List Nat) :
    seriousUpdate cur b s "blocker+" =
      s "blocker+" ++ (if blockerPlusCond cur b then [b.id] else []) := by
  simp only [seriousUpdate]
  have h0 := foldKw_preserve b "blocker+" seriousKeywords s (by decide)
  have hne : ("blocker+" : String) ≠ "blocker?" := by decide
  by_cases hq : blockerQuestionCond cur b
  · rw [if_pos hq, appendAt_ne _ _ _ _ hne]
    by_cases hp : blockerPlusCond cur b
    · rw [if_pos hp, if_pos hp, appendAt_self, h0]
    · rw [if_neg hp, if_neg hp, h0, List.append_nil]
  · rw [if_neg hq]
    by_cases hp : blockerPlusCond cur b
    · rw [if_pos hp, if_pos hp, appendAt_self, h0]
    · rw [if_neg hp, if_neg hp, h0, List.append_nil]

theorem seriousUpdate_question (cur : String) (b : Bug)
    (s : String → List Nat) :
    seriousUpdate cur b s "blocker?" =
      s "blocker?" ++ (if blockerQuestionCond cur b then [b.id] else []) := by
  simp only [seriousUpdate]
  have h0 := foldKw_preserve b "blocker?" seriousKeywords s (by decide)
  have hne : ("blocker?" : String) ≠ "blocker+" := by decide
  by_cases hq : blockerQuestionCond cur b
  · rw [if_pos hq, if_pos hq, appendAt_self]
    by_cases hp : blockerPlusCond cur b
    · rw [if_pos hp, appendAt_ne _ _ _ _ hne, h0]
    · rw [if_neg hp, h0]
  · rw [if_neg hq, if_neg hq, List.append_nil]
    by_cases hp : blockerPlusCond cur b
    · rw [if_pos hp, appendAt_ne _ _ _ _ hne, h0]
    · rw [if_neg hp, h0]

theorem foldSummarize_blockerPlusIDs (fmt : Bug → String) (cur : String)
    (bugs : List Bug) : ∀ r,
    (List.foldl (summarizeStep fmt cur) r bugs).blockerPlusIDs =
      r.blockerPlusIDs ++ (bugs.filter (blockerPlusCond cur)).map Bug.id := by
  induction bugs with
  | nil => intro r; simp
  | cons b bs ih =>
    intro r
    rw [List.foldl_cons, ih, List.filter_cons]
    have hstep : (summarizeStep fmt cur r b).blockerPlusIDs =
        if blockerPlusCond cur b then r.blockerPlusIDs ++ [b.id]
        else r.blockerPlusIDs := rfl
    by_cases h : blockerPlusCond cur b <;> simp [h, hstep]

theorem foldSummarize_blockerQuestionIDs (fmt : Bug → String) (cur : String)
    (bugs : List Bug) : ∀ r,
    (List.foldl (summarizeStep fmt cur) r bugs).blockerQuestionmarkIDs =
      r.blockerQuestionmarkIDs ++
        (bugs.filter (blockerQuestionCond cur)).map Bug.id := by
  induction bugs with
  | nil => intro r; simp
  | cons b bs ih =>
    intro r
    rw [List.foldl_cons, ih, List.filter_cons]
    have hstep : (summarizeStep fmt cur r b).blockerQuestionmarkIDs =
        if blockerQuestionCond cur b then r.blockerQuestionmarkIDs ++ [b.id]
        else r.blockerQuestionmarkIDs := rfl
    by_cases h : blockerQuestionCond cur b <;> simp [h, hstep]

theorem foldSummarize_serious_plus (fmt : Bug → String) (cur : String)
    (bugs : List Bug) : ∀ r,
    (List.foldl (summarizeStep fmt cur) r bugs).seriousIDs "blocker+" =
      r.seriousIDs "blocker+" ++
        (bugs.filter (blockerPlusCond cur)).map Bug.id := by
  induction bugs with
  | nil => intro r; simp
  | cons b bs ih =>
    intro r
    rw [List.foldl_cons, ih, List.filter_cons]
    have hstep : (summarizeStep fmt cur r b).seriousIDs "blocker+" =
        r.seriousIDs "blocker+" ++
          (if blockerPlusCond cur b then [b.id] else []) :=
      seriousUpdate_plus cur b r.seriousIDs
    by_cases h : blockerPlusCond cur b <;> simp [h, hstep]

theorem foldSummarize_serious_question (fmt : Bug → String) (cur : String)
    (bugs : List Bug) : ∀ r,
    (List.foldl (summarizeStep fmt cur) r bugs).seriousIDs "blocker?" =
      r.seriousIDs "blocker?" ++
        (bugs.filter (blockerQuestionCond cur)).map Bug.id := by
  induction bugs with
  | nil => intro r; simp
  | cons b bs ih =>
    intro r
    rw [List.foldl_cons, ih, List.filter_cons]
    have hstep : (summarizeStep fmt cur r b).seriousIDs "blocker?" =
        r.seriousIDs "blocker?" ++
          (if blockerQuestionCond cur b then [b.id] else []) :=
      seriousUpdate_question cur b r.seriousIDs
    by_cases h : blockerQuestionCond cur b <;> simp [h, hstep]

theorem perPerson_of_none (byID : Nat → Option Bug)
    (h : ∀ n, byID n = none) (ids : List Nat) (lines : List String) :
    perPerson byID ids lines = emptyPM := by
  unfold perPerson
  generalize ids.zip lines = l
  induction l with
  | nil => rfl
  | cons p rest ih =>
    rw [List.foldl_cons]
    simp only [h p.1]
    exact ih

theorem escStep_assignedPairs (cfg : List (String × ComponentInfo))
    (st : EscState) (b : Bug) :
    (escStep cfg st b).assignedPairs =
      if escalationEligible b then st.assignedPairs ++ [(b.assignedTo, b)]
      else st.assignedPairs := by
  unfold escStep
  by_cases h : escalationEligible b
  · rw [if_pos h, if_pos h]
  · rw [if_neg h, if_neg h]
    by_cases h2 : b.severity == "urgent" && b.priority != "unspecified"
    · rw [if_pos h2]
    · rw [if_neg h2]

theorem escStep_silenced (cfg : List (String × ComponentInfo))
    (st : EscState) (b : Bug) :
    (escStep cfg st b).silenced =
      if !escalationEligible b &&
          (b.severity == "urgent" && b.priority != "unspecified") then
        st.silenced ++ [b]
      else st.silenced := by
  unfold escStep
  by_cases h : escalationEligible b
  · rw [if_pos h]
    simp [h]
  · rw [if_neg h]
    by_cases h2 : b.severity == "urgent" && b.priority != "unspecified"
    · rw [if_pos h2]
      simp [h, h2]
    · rw [if_neg h2]
      simp [h, h2]

theorem escFold_go_assigned (cfg : List (String × ComponentInfo))
    (bugs : List Bug) (a : String) : ∀ st : EscState,
    assignedOf (bugs.foldl (escStep cfg) st) a =
      assignedOf st a ++
        bugs.filter (fun b => escalationEligible b && b.assignedTo == a) := by
  induction bugs with
  | nil => intro st; simp
  | cons b bs ih =>
    intro st
    rw [List.foldl_cons, ih, List.filter_cons]
    have hstep : assignedOf (escStep cfg st b) a =
        assignedOf st a ++
          (if escalationEligible b && b.assignedTo == a then [b] else []) := by
      unfold assignedOf
      rw [escStep_assignedPairs]
      by_cases h : escalationEligible b
      · rw [if_pos h, List.filter_append, List.map_append]
        by_cases h2 : b.assignedTo == a
        · simp [h, h2]
        · simp [h, h2]
      · simp [h]
    by_cases hc : escalationEligible b && b.assignedTo == a
    · simp [hstep, hc]
    · simp [hstep, hc]

theorem escFold_go_silenced (cfg : List (String × ComponentInfo))
    (bugs : List Bug) : ∀ st : EscState,
    (bugs.foldl (escStep cfg) st).silenced =
      st.silenced ++
        bugs.filter
          (fun b => !escalationEligible b &&
            (b.severity == "urgent" && b.priority != "unspecified")) := by
  induction bugs with
  | nil => intro st; simp
  | cons b bs ih =>
    intro st
    rw [List.foldl_cons, ih, List.filter_cons, escStep_silenced]
    by_cases hc : !escalationEligible b &&
        (b.severity == "urgent" && b.priority != "unspecified")
    · simp [hc]
    · simp [hc]

theorem quota_floor (n : Nat) : Nat.floor ((n : ℚ) * (1 / 5)) = n / 5 := by
  rw [mul_one_div, show ((5 : ℚ)) = ((5 : ℕ) : ℚ) by norm_cast,
    Nat.floor_div_nat, Nat.floor_natCast]

theorem scanLastID_take (bugs : List Bug) : ∀ (cur : Int) (i : Nat),
    i ≤ 51 →
    scanLastID cur i bugs =
      (bugs.take (52 - i)).foldl (fun c b => max c (b.id : Int)) cur := by
  induction bugs with
  | nil => intro cur i _; simp [scanLastID]
  | cons b bs ih =>
    intro cur i hi
    have hmax : (if (b.id : Int) > cur then (b.id : Int) else cur) =
        max cur (b.id : Int) := by
      rcases le_or_lt (b.id : Int) cur with h | h
      · rw [if_neg (not_lt.2 h), max_eq_left h]
      · rw [if_pos h, max_eq_right h.le]
    simp only [scanLastID]
    rw [hmax]
    by_cases hbreak : i > 50
    · have h51 : i = 51 := le_antisymm hi hbreak
      subst h51
      rw [if_pos hbreak, show 52 - 51 = 0 + 1 from rfl, List.take_succ_cons,
        List.take_zero, List.foldl_cons, List.foldl_nil]
    · have hi2 : i + 1 ≤ 51 := by omega
      rw [if_neg hbreak, ih _ (i + 1) hi2,
        show 52 - i = (52 - (i + 1)) + 1 by omega, List.take_succ_cons,
        List.foldl_cons]

theorem le_foldl_max (l : List Bug) : ∀ c : Int,
    c ≤ l.foldl (fun c b => max c (b.id : Int)) c := by
  induction l with
  | nil => intro c; simp
  | cons b bs ih =>
    intro c
    rw [List.foldl_cons]
    exact le_trans (le_max_left _ _) (ih _)

/-- C2: on every successful call the blockers Report function returns the
literal nil (here `[]`) as its issue-list result, so the identifier
index built by sync is empty everywhere and all three per-person grouping
pairs (to-triage, blocker+, urgent) are the empty maps. -/
theorem blockers_report_nil_bugs_groupings_empty (fmt : Bug → String)
    (cur : String) (searchBugs : List Bug) :
    blockersReport fmt cur (.ok searchBugs) =
        .ok (summarizeBugs fmt cur searchBugs, ([] : List Bug))
    ∧ buildByID [] = (fun _ => none)
    ∧ blockersSyncGroupings fmt cur searchBugs = (emptyPM, emptyPM, emptyPM) := by
  have hnone : ∀ n, buildByID [] n = none := fun n => rfl
  refine ⟨rfl, funext fun n => rfl, ?_⟩
  show syncPerPersonGroupings (buildByID [])
      (summarizeBugs fmt cur searchBugs) = (emptyPM, emptyPM, emptyPM)
  unfold syncPerPersonGroupings
  rw [perPerson_of_none _ hnone, perPerson_of_none _ hnone]

/-- C4: the escalation aggregator assigns a bug to assigned[assignee]
exactly when it is eligible (explicit escalation indicator Yes, or a
customer case with urgent priority, or a customer case with urgent
severity and unspecified priority), and puts a non-eligible bug on the
silenced list exactly when its severity is urgent and its priority is not
unspecified. -/
theorem escalation_assigned_silenced_iff
    (cfg : List (String × ComponentInfo)) (bugs : List Bug) (a : String)
    (b : Bug) :
    assignedOf (escFold cfg bugs) a =
        bugs.filter (fun b => escalationEligible b && b.assignedTo == a)
    ∧ (escFold cfg bugs).silenced =
        bugs.filter (fun b => !escalationEligible b &&
          (b.severity == "urgent" && b.priority != "unspecified"))
    ∧ escalationEligible b =
        (b.escalation == "Yes" ||
          (hasCustomerCase b && b.priority == "urgent") ||
          (hasCustomerCase b && b.severity == "urgent" &&
            b.priority == "unspecified")) := by
  refine ⟨?_, ?_, rfl⟩
  · have h := escFold_go_assigned cfg bugs a {}
    simpa [escFold, assignedOf] using h
  · have h := escFold_go_silenced cfg bugs {}
    simpa [escFold] using h

/-- C5: the escalation quota over a team equals max(1, floor(0.2 times
the team size)), which is max 1 (size / 5); quota of team sizes 0, 1, 10
and 20 is 1, 1, 2 and 4; and a lead is marked over-quota exactly when the
attributed bug count strictly exceeds the quota. -/
theorem escalation_quota_formula (team : List String) (numBugs : Nat) :
    escalationQuota team = max 1 (team.length / 5)
    ∧ escalationQuota [] = 1
    ∧ escalationQuota (List.replicate 1 "d") = 1
    ∧ escalationQuota (List.replicate 10 "d") = 2
    ∧ escalationQuota (List.replicate 20 "d") = 4
    ∧ (leadOverQuota numBugs team = true ↔ escalationQuota team < numBugs) := by
  have hq : ∀ t : List String, escalationQuota t = max 1 (t.length / 5) := by
    intro t
    unfold escalationQuota
    rw [quota_floor]
  refine ⟨hq team, ?_, ?_, ?_, ?_, ?_⟩
  · rw [hq]; decide
  · rw [hq]; decide
  · rw [hq]; decide
  · rw [hq]; decide
  · simp [leadOverQuota]

/-- C9: the classifier puts a bug into the blocker+ (respectively
blocker?) identifier bucket and into the serious-keyword map under the
synthetic key blocker+ (respectively blocker?) exactly when the bug
carries a flag named blocker with value + (respectively ?) and its
resolved release passes the release gate; a bug with an empty
target-release list always passes the gate. -/
theorem blockers_blocker_classification (fmt : Bug → String) (cur : String)
    (bugs : List Bug) (b : Bug) :
    (summarizeBugs fmt cur bugs).blockerPlusIDs =
        (bugs.filter (blockerPlusCond cur)).map Bug.id
    ∧ (summarizeBugs fmt cur bugs).seriousIDs "blocker+" =
        (bugs.filter (blockerPlusCond cur)).map Bug.id
    ∧ (summarizeBugs fmt cur bugs).blockerQuestionmarkIDs =
        (bugs.filter (blockerQuestionCond cur)).map Bug.id
    ∧ (summarizeBugs fmt cur bugs).seriousIDs "blocker?" =
        (bugs.filter (blockerQuestionCond cur)).map Bug.id
    ∧ blockerPlusCond cur b = (hasFlag b "blocker" "+" && releaseGate cur b)
    ∧ blockerQuestionCond cur b =
        (hasFlag b "blocker" "?" && releaseGate cur b)
    ∧ releaseGate cur { b with targetRelease := [] } = true := by
  refine ⟨?_, ?_, ?_, ?_, rfl, rfl, ?_⟩
  · have h := foldSummarize_blockerPlusIDs fmt cur bugs initSummary
    simpa [summarizeBugs, initSummary] using h
  · have h := foldSummarize_serious_plus fmt cur bugs initSummary
    simpa [summarizeBugs, initSummary] using h
  · have h := foldSummarize_blockerQuestionIDs fmt cur bugs initSummary
    simpa [summarizeBugs, initSummary] using h
  · have h := foldSummarize_serious_question fmt cur bugs initSummary
    simpa [summarizeBugs, initSummary] using h
  · simp [releaseGate, resolvedRelease]

/-- C1: evaluation of the sync grouping wiring on a concrete index and
summary holding one to-triage, non-blocker bug. The blocker+ slot of the
groupings triple is fed from the to-triage identifier and line lists
(line 174), so it maps alice to the to-triage bug, while the generic
grouper applied to the blocker+ data of the same summary maps alice to
nothing: the two disagree. -/
theorem blockers_blockerPlus_grouping_wired_to_toTriage :
    (syncPerPersonGroupings c1Index c1Summary).2.1 =
        perPerson c1Index c1Summary.toTriageIDs c1Summary.toTriage
    ∧ (syncPerPersonGroupings c1Index c1Summary).2.1.1 "alice" = [7]
    ∧ (perPerson c1Index c1Summary.blockerPlusIDs c1Summary.blockerPlus).1
        "alice" = []
    ∧ (syncPerPersonGroupings c1Index c1Summary).2.1.1 "alice" ≠
        (perPerson c1Index c1Summary.blockerPlusIDs c1Summary.blockerPlus).1
          "alice" :=
  ⟨rfl, by decide, by decide, by decide⟩

/-- C3 counterexample: a bug with severity low satisfies every constraint
of the escalation query (it is even escalation-eligible), so the query
does not restrict results to severity urgent. -/
theorem escalation_query_admits_low_severity :
    matchesQuery (escalationQuery ["etcd"]) lowSevBug = true
    ∧ lowSevBug.severity ≠ "urgent"
    ∧ escalationEligible lowSevBug = true := by
  refine ⟨by decide, by decide, by decide⟩

/-- C3 amended: the escalation query carries no advanced predicate at all
and its matching is independent of the severity field, so issues of any
severity can reach the escalation aggregator. -/
theorem escalation_query_severity_independent (comps : List String)
    (b : Bug) (s : String) :
    (escalationQuery comps).advanced = []
    ∧ matchesQuery (escalationQuery comps) { b with severity := s } =
        matchesQuery (escalationQuery comps) b :=
  ⟨rfl, rfl⟩

/-- C10: the escalation Report result is the empty string whenever the
per-lead attribution list and the silenced list are both empty, with no
condition on the assigned map. -/
theorem escalation_report_empty_without_lead_attribution
    (expand : List String → List String) (bugURL : Bug → String)
    (cfg : List (String × ComponentInfo)) (bugs : List Bug)
    (h1 : (escFold cfg bugs).leadsPairs = [])
    (h2 : (escFold cfg bugs).silenced = []) :
    escReport expand bugURL cfg bugs = "" := by
  unfold escReport
  rw [h1, h2]
  rfl

/-- C10 witness: one eligible bug whose component has no configured lead
produces a non-empty assigned map but no lead attribution and no silenced
bug, and the report is the empty string. -/
theorem escalation_report_empty_without_lead_attribution_witness :
    (escFold wCfg [wBug]).leadsPairs = []
    ∧ (escFold wCfg [wBug]).silenced = []
    ∧ assignedOf (escFold wCfg [wBug]) "alice" ≠ []
    ∧ escReport (fun r => r) (fun _ => "") wCfg [wBug] = "" :=
  ⟨by decide, by decide, by decide,
    escalation_report_empty_without_lead_attribution (fun r => r) (fun _ => "")
      wCfg [wBug] (by decide) (by decide)⟩

set_option maxRecDepth 100000

/-- C6 counterexample: on a successful cycle whose result set has 53 bugs
with the maximal identifier 1000 in last position, the persisted
watermark is 52, not max(previousWatermark, maximum identifier of the
result set) = 1000, because the scan breaks after index 51. -/
theorem newbug_watermark_misses_late_max :
    (syncNewBugs cexEnv ["component-a"]).err = none
    ∧ (syncNewBugs cexEnv ["component-a"]).persistCalls = [(52 : Int)]
    ∧ cexBugs.foldl (fun c b => max c (b.id : Int)) 0 = 1000
    ∧ (syncNewBugs cexEnv ["component-a"]).persistCalls ≠
        [max (0 : Int) (cexBugs.foldl (fun c b => max c (b.id : Int)) 0)] := by
  refine ⟨by decide, by decide, by decide, by decide⟩

/-- C6 amended: after a successful new-bug cycle the persisted watermark
equals the fold of max over the previous watermark and the identifiers of
the first 52 result bugs only (hence over all of them when the result set
has at most 52 elements); an empty result set leaves the watermark
unchanged; and the watermark never decreases. -/
theorem newbug_watermark_truncated_scan (s : String) (bugs : List Bug)
    (comps : List String) :
    (syncNewBugs ⟨.ok s, fun _ => .ok bugs, none⟩ comps).err = none
    ∧ (syncNewBugs ⟨.ok s, fun _ => .ok bugs, none⟩ comps).persistCalls =
        [(bugs.take 52).foldl (fun c b => max c (b.id : Int))
          (parsedWatermark s)]
    ∧ (syncNewBugs ⟨.ok s, fun _ => .ok [], none⟩ comps).persistCalls =
        [parsedWatermark s]
    ∧ parsedWatermark s ≤
        (bugs.take 52).foldl (fun c b => max c (b.id : Int))
          (parsedWatermark s) := by
  have hscan : ∀ (l : List Bug) (c : Int),
      scanLastID c 0 l = (l.take 52).foldl (fun c b => max c (b.id : Int)) c :=
    fun l c => scanLastID_take l c 0 (by omega)
  refine ⟨rfl, ?_, rfl, le_foldl_max _ _⟩
  show (finishPersist none (scanLastID (parsedWatermark s) 0 bugs)
      none).persistCalls = _
  rw [show (finishPersist none (scanLastID (parsedWatermark s) 0 bugs)
      none).persistCalls = [scanLastID (parsedWatermark s) 0 bugs] from rfl,
    hscan]

/-- C7: when the stored watermark string is present but not a valid
integer, the parse never fails the cycle: the watermark resets to 0, the
cycle runs exactly as with an empty stored state, the query used is the
bootstrap variant whose single predicate is creation time at least now
minus 24h, and the returned error depends only on the search and persist
outcomes. -/
theorem newbug_parse_failure_resets_to_bootstrap (s : String)
    (comps : List String) (client : Query → Except String (List Bug))
    (pf : Option String) (h1 : s ≠ "") (h2 : atoi s = none) :
    parsedWatermark s = 0
    ∧ (newBugsQuery comps 0).advanced =
        [⟨"creation_ts", "greaterthaneq", "-24h"⟩]
    ∧ syncNewBugs ⟨.ok s, client, pf⟩ comps =
        syncNewBugs ⟨.ok "", client, pf⟩ comps
    ∧ (syncNewBugs ⟨.ok s, client, pf⟩ comps).err =
        (match client (newBugsQuery comps 0) with
         | .error e => some e
         | .ok _ => pf)
    ∧ (syncNewBugs ⟨.ok s, client, pf⟩ comps).persistCalls.length = 1 := by
  have hp : parsedWatermark s = 0 := by
    simp [parsedWatermark, h1, h2]
  have hbody : syncNewBugs ⟨.ok s, client, pf⟩ comps =
      syncAfterRead client comps pf 0 := by
    show syncAfterRead client comps pf (parsedWatermark s) = _
    rw [hp]
  have herr : ∀ lastID : Int,
      (syncAfterRead client comps pf lastID).err =
        (match client (newBugsQuery comps lastID) with
         | .error e => some e
         | .ok _ => pf) := by
    intro lastID
    unfold syncAfterRead getNewBugs
    cases hcl : client (newBugsQuery comps lastID) <;>
      simp [hcl, finishPersist]
  have hlen : ∀ lastID : Int,
      (syncAfterRead client comps pf lastID).persistCalls.length = 1 := by
    intro lastID
    unfold syncAfterRead getNewBugs
    cases hcl : client (newBugsQuery comps lastID) <;>
      simp [hcl, finishPersist]
  refine ⟨hp, rfl, ?_, ?_, ?_⟩
  · rw [hbody]
    rfl
  · rw [hbody]
    exact herr 0
  · rw [hbody]
    exact hlen 0

/-- C7 witness: the concrete stored string not-a-number with a harmless
client and persist. -/
theorem newbug_parse_failure_resets_to_bootstrap_witness :
    parsedWatermark "not-a-number" = 0
    ∧ (newBugsQuery ["component-a"] 0).advanced =
        [⟨"creation_ts", "greaterthaneq", "-24h"⟩]
    ∧ syncNewBugs ⟨.ok "not-a-number", wClient, none⟩ ["component-a"] =
        syncNewBugs ⟨.ok "", wClient, none⟩ ["component-a"]
    ∧ (syncNewBugs ⟨.ok "not-a-number", wClient, none⟩
          ["component-a"]).err =
        (match wClient (newBugsQuery ["component-a"] 0) with
         | .error e => some e
         | .ok _ => none)
    ∧ (syncNewBugs ⟨.ok "not-a-number", wClient, none⟩
          ["component-a"]).persistCalls.length = 1 :=
  newbug_parse_failure_resets_to_bootstrap "not-a-number" ["component-a"]
    wClient none (by decide) (by decide)

/-- C8 counterexample: when the initial watermark read fails, the cycle
returns the read error and the persist step is never attempted, so the
persist is not attempted on every cycle. -/
theorem newbug_no_persist_on_read_failure :
    (syncNewBugs ⟨.error "boom", fun _ => .ok [], none⟩
        ["component-a"]).persistCalls = []
    ∧ (syncNewBugs ⟨.error "boom", fun _ => .ok [], none⟩
        ["component-a"]).err = some "boom" :=
  ⟨rfl, rfl⟩

/-- C8 amended: in every cycle whose initial watermark read succeeds, the
persist step is attempted exactly once regardless of mid-cycle errors,
and the returned error is the search error if the search failed, else the
persist error, else none. -/
theorem newbug_persist_once_after_successful_read (s : String)
    (comps : List String) (client : Query → Except String (List Bug))
    (pf : Option String) :
    (syncNewBugs ⟨.ok s, client, pf⟩ comps).persistCalls.length = 1
    ∧ (syncNewBugs ⟨.ok s, client, pf⟩ comps).err =
        (match client (newBugsQuery comps (parsedWatermark s)) with
         | .error e => some e
         | .ok _ => pf) := by
  constructor
  · show (syncAfterRead client comps pf (parsedWatermark s)).persistCalls.length = 1
    unfold syncAfterRead getNewBugs
    cases hcl : client (newBugsQuery comps (parsedWatermark s)) <;>
      simp [hcl, finishPersist]
  · show (syncAfterRead client comps pf (parsedWatermark s)).err = _
    unfold syncAfterRead getNewBugs
    cases hcl : client (newBugsQuery comps (parsedWatermark s)) <;>
      simp [hcl, finishPersist]
